import Mathlib

/-!
Shallow embedding of the EntitySAM training orchestration module
(`train_net.py`) and proofs about it.

The embedding covers: the selective fine-tuning mask applied in
`Trainer.build_model`, the parameter-group construction and optimizer
assembly of `Trainer.build_optimizer` (including
`maybe_add_full_model_gradient_clipping`), the evaluator dispatch of
`Trainer.build_evaluator`, the loader factories `Trainer.build_train_loader`
and `Trainer.build_test_loader`, and the test driver `Trainer.test`.

Modelling conventions:
* The PyTorch model is represented by the enumeration that
  `model.named_modules()` yields: a list of named modules, each with a
  module kind (normalization layer / embedding table / other) and its
  locally owned parameters.  A parameter is identified by a numeric id
  (its Python object identity); `requires_grad` state is a function from
  ids to `Bool`.
* Python string operations `s.startswith(p)` and `sub in s` are embedded
  as `pyStartsWith` and `pyIn` over the strings' character lists.
* Learning rates and weight decays are opaque numeric configuration
  values; the code only copies them and multiplies the learning rate by
  the backbone multiplier, so they are embedded as `Int`.
* Python exceptions are values of `PyError` threaded through `Except`.
  A reference to a global name is looked up in `moduleScope`, the set of
  names imported or defined by `train_net.py`; a name missing from it
  raises `NameError`, exactly as CPython would at that call site.
-/

namespace TrainNet

/-- Python `s.startswith(pre)`. -/
def pyStartsWith (s pre : String) : Bool :=
  pre.data.isPrefixOf s.data

/-- Does `needle` occur as a contiguous run inside the list? -/
def listIn (needle : List Char) : List Char → Bool
  | [] => needle.isPrefixOf []
  | c :: rest => needle.isPrefixOf (c :: rest) || listIn needle rest

/-- Python `needle in hay` for strings: substring containment. -/
def pyIn (needle hay : String) : Bool :=
  listIn needle.data hay.data

/-- Concatenation of the images of `f` over a list (Python list-building
nested loops). -/
def concatMap (f : α → List β) : List α → List β
  | [] => []
  | a :: l => f a ++ concatMap f l

/-- The global names imported or defined at module level in
`train_net.py` (its `import` block plus the module-level definitions).
Note that neither `ImageNetEvaluator` nor `CocoClipDatasetMapper` is
among them: the source references both without importing or defining
them. -/
def moduleScope : List String :=
  ["copy", "itertools", "logging", "os", "OrderedDict", "torch", "weakref",
   "comm", "DetectionCheckpointer", "get_cfg", "MetadataCatalog",
   "build_detection_train_loader", "DefaultTrainer",
   "default_argument_parser", "default_setup", "launch", "create_ddp_model",
   "AMPTrainer", "SimpleTrainer", "HookBase", "COCOEvaluator",
   "COCOPanopticEvaluator", "SemSegEvaluator", "DatasetEvaluator",
   "LVISEvaluator", "inference_on_dataset", "print_csv_format",
   "verify_results", "add_deeplab_config", "build_lr_scheduler",
   "maybe_add_gradient_clipping", "setup_logger",
   "build_sam2_video_query_iou_predictor", "UniVidDatasetMapper",
   "OpenVocabularyCocoPanoClipDatasetMapper", "EntitySegClipDatasetMapper",
   "build_combined_loader", "build_detection_test_loader",
   "add_train_config", "Trainer", "setup", "main"]

/-- A Python exception raised by the embedded code. -/
inductive PyError where
  | notImplemented (msg : String)
  | nameError (name : String)
  | assertionError (msg : String)
deriving DecidableEq

instance {ε α : Type} [DecidableEq ε] [DecidableEq α] : DecidableEq (Except ε α) :=
  fun x y =>
    match x, y with
    | Except.ok a, Except.ok b =>
      if h : a = b then isTrue (congrArg Except.ok h)
      else isFalse (fun hh => h (Except.ok.inj hh))
    | Except.error a, Except.error b =>
      if h : a = b then isTrue (congrArg Except.error h)
      else isFalse (fun hh => h (Except.error.inj hh))
    | Except.ok _, Except.error _ => isFalse (fun hh => Except.noConfusion hh)
    | Except.error _, Except.ok _ => isFalse (fun hh => Except.noConfusion hh)

/-- Evaluating a reference to the global name `n`: yields the denoted
value `v` when `n` is bound at module level, else raises `NameError`. -/
def refGlobal (n : String) (v : α) : Except PyError α :=
  if n ∈ moduleScope then Except.ok v else Except.error (PyError.nameError n)

/-! ## Data model: the module/parameter enumeration of the model -/

/-- Kind of a module, as tested by the two `isinstance` checks in
`build_optimizer`: a normalization layer (`norm_module_types`), an
embedding table (`torch.nn.Embedding`), or anything else. -/
inductive ModuleKind where
  | norm
  | embedding
  | other
deriving DecidableEq

/-- A parameter owned directly by a module: its local name and the
identity of the underlying tensor object. -/
structure ParamEntry where
  name : String
  pid : Nat
deriving DecidableEq

/-- One entry of the `model.named_modules()` enumeration: the module's
qualified name, its kind, and its directly owned parameters
(`named_parameters(recurse=False)`). -/
structure NamedModule where
  mname : String
  kind : ModuleKind
  params : List ParamEntry
deriving DecidableEq

/-- The model, as the orchestration layer observes it: the sequence that
`model.named_modules()` yields (root first, qualified dot-path names). -/
abbrev Model := List NamedModule

/-- PyTorch's qualified-name join: the root module has name `""`, so its
direct parameters keep their local names. -/
def joinName (pre n : String) : String :=
  if pre = "" then n else pre ++ "." ++ n

/-- A module's parameters as (owning module name, module kind, local
parameter name, parameter identity) records. -/
structure OwnedParam where
  moduleName : String
  kind : ModuleKind
  paramName : String
  pid : Nat
deriving DecidableEq

/-- The owned-parameter records of one named module. -/
def ownedOfModule (m : NamedModule) : List OwnedParam :=
  m.params.map (fun pe => ⟨m.mname, m.kind, pe.name, pe.pid⟩)

/-- All owned-parameter records of the model, in enumeration order: the
pairs visited by `build_optimizer`'s nested loops. -/
def enumOwned (model : Model) : List OwnedParam :=
  concatMap ownedOfModule model

/-- The `model.named_parameters()` enumeration before identity
deduplication: each module's direct parameters under their qualified
names. -/
def namedParamsRaw (model : Model) : List (String × Nat) :=
  concatMap (fun m => m.params.map (fun pe => (joinName m.mname pe.name, pe.pid))) model

/-- Identity deduplication of `named_parameters()` (PyTorch's
`remove_duplicate=True` memo): keep the first occurrence of each
parameter object. -/
def dedupByIdAux : List (String × Nat) → List Nat → List (String × Nat)
  | [], _ => []
  | (n, i) :: rest, seen =>
    if i ∈ seen then dedupByIdAux rest seen
    else (n, i) :: dedupByIdAux rest (i :: seen)

/-- Model enumeration `model.named_parameters()`: qualified names with first-occurrence
identity deduplication. -/
def namedParams (model : Model) : List (String × Nat) :=
  dedupByIdAux (namedParamsRaw model) []

/-! ## Selective fine-tuning mask (`Trainer.build_model`, lines 118-146) -/

/-- The literal `tune_name_list` of `Trainer.build_model`. -/
def tune_name_list : List String :=
  ["sam_mask_decoder.transformer",
   "sam_mask_decoder.queries",
   "sam_mask_decoder.iou_queries",
   "sam_mask_decoder.output_upscaling",
   "sam_mask_decoder.conv_s0",
   "sam_mask_decoder.conv_s1",
   "sam_mask_decoder.output_hypernetworks_mlps.0",
   "sam_mask_decoder.cls_prediction_head",
   "sam_mask_decoder.iou_prediction_head",
   "sam_mask_decoder.level_embed",
   "sam_mask_decoder.mask_embed",
   "point_sampler_net",
   "point_sampler_num",
   "offset_attention",
   "offset_embedding",
   "offset_fc",
   "offset_cls",
   "dinov2_projector",
   "backbone_feature_enhancement"]

/-- Python `any(n.startswith(p) for p in tune_name_list)`. -/
def startsWithAny (allow : List String) (n : String) : Bool :=
  allow.any (fun p => pyStartsWith n p)

/-- The fine-tuning mask loop of `build_model`:
`for n, p in model.named_parameters(): p.requires_grad = any(...)`.
`flags` is the `requires_grad` state before the loop; the result is the
state after it. -/
def apply_tuning_mask (allow : List String) (model : Model) (flags : Nat → Bool) :
    Nat → Bool :=
  (namedParams model).foldl
    (fun f p => fun q => if q = p.2 then startsWithAny allow p.1 else f q)
    flags

/-! ## Optimizer construction (`Trainer.build_optimizer`, lines 250-332) -/

/-- The solver configuration consumed by `build_optimizer`. -/
structure SolverCfg where
  BASE_LR : Int
  WEIGHT_DECAY : Int
  WEIGHT_DECAY_NORM : Int
  WEIGHT_DECAY_EMBED : Int
  BACKBONE_MULTIPLIER : Int
  MOMENTUM : Int
  OPTIMIZER : String
  CLIP_GRADIENTS_ENABLED : Bool
  CLIP_GRADIENTS_CLIP_TYPE : String
  CLIP_GRADIENTS_CLIP_VALUE : Int
deriving DecidableEq

/-- One optimization group appended to `params`:
`{"params": [value], "lr": ..., "weight_decay": ...}`. -/
structure Group where
  params : List Nat
  lr : Int
  weight_decay : Int
deriving DecidableEq

/-- The learning rate placed in `hyperparams` for a parameter owned by
module `moduleName` (lines 284-288): the base rate, multiplied by the
backbone multiplier when the module path contains `image_encoder` but
not `ctm`. -/
def computeLR (cfg : SolverCfg) (moduleName : String) : Int :=
  if pyIn "image_encoder" moduleName then
    if !(pyIn "ctm" moduleName) then cfg.BASE_LR * cfg.BACKBONE_MULTIPLIER
    else cfg.BASE_LR
  else cfg.BASE_LR

/-- The weight decay placed in `hyperparams` for a parameter with local
name `paramName` owned by a module of kind `kind` (lines 290-299): the
default, overwritten to `0` on the position-embedding name patterns,
then overwritten to `WEIGHT_DECAY_NORM` on normalization modules, then
overwritten to `WEIGHT_DECAY_EMBED` on embedding modules — each check
applied unconditionally in that order. -/
def computeWD (cfg : SolverCfg) (paramName : String) (kind : ModuleKind) : Int :=
  let wd0 : Int :=
    if pyIn "relative_position_bias_table" paramName
       || pyIn "absolute_pos_embed" paramName then 0
    else cfg.WEIGHT_DECAY
  let wd1 : Int := if kind = ModuleKind.norm then cfg.WEIGHT_DECAY_NORM else wd0
  if kind = ModuleKind.embedding then cfg.WEIGHT_DECAY_EMBED else wd1

/-- The group built for one surviving parameter. -/
def mkGroup (cfg : SolverCfg) (e : OwnedParam) : Group :=
  { params := [e.pid],
    lr := computeLR cfg e.moduleName,
    weight_decay := computeWD cfg e.paramName e.kind }

/-- The body of `build_optimizer`'s inner loop, acting on the state
`(params, memo)`: skip non-trainable parameters, skip parameters already
in `memo`, otherwise add to `memo` and append the group. -/
def optimStep (cfg : SolverCfg) (flags : Nat → Bool) (moduleName : String)
    (kind : ModuleKind) (st : List Group × List Nat) (pe : ParamEntry) :
    List Group × List Nat :=
  if flags pe.pid = false then st
  else if pe.pid ∈ st.2 then st
  else
    (st.1 ++ [mkGroup cfg ⟨moduleName, kind, pe.name, pe.pid⟩],
     pe.pid :: st.2)

/-- The `params` list of `build_optimizer` (lines 273-300): the nested
loop over `model.named_modules()` and each module's direct parameters. -/
def build_optimizer_params (cfg : SolverCfg) (model : Model) (flags : Nat → Bool) :
    List Group :=
  (model.foldl
    (fun st m => m.params.foldl (optimStep cfg flags m.mname m.kind) st)
    ([], [])).1

/-- The underlying optimizer class selected by `cfg.SOLVER.OPTIMIZER`. -/
inductive BaseOpt where
  | sgd
  | adamw
deriving DecidableEq

/-- The optimizer object returned by `build_optimizer`: the base class,
its parameter groups, whether the `FullModelGradientClippingOptimizer`
subclass wraps the step, and whether the generic detectron2
`maybe_add_gradient_clipping` wrapper was applied around it. -/
structure OptimizerObj where
  base : BaseOpt
  groups : List Group
  fullModelClip : Bool
  perGroupClipWrapped : Bool
deriving DecidableEq

/-- The `enable` predicate of `maybe_add_full_model_gradient_clipping`
(lines 304-309). -/
def fullModelClipEnable (cfg : SolverCfg) : Bool :=
  cfg.CLIP_GRADIENTS_ENABLED
    && (cfg.CLIP_GRADIENTS_CLIP_TYPE = "full_model")
    && (0 < cfg.CLIP_GRADIENTS_CLIP_VALUE)

/-- Applying `maybe_add_full_model_gradient_clipping(optim)(params, ...)`: the
constructed optimizer instance is of the clipping subclass exactly when
`enable` holds (lines 302-317). -/
def maybe_add_full_model_gradient_clipping (cfg : SolverCfg) (b : BaseOpt)
    (gs : List Group) : OptimizerObj :=
  { base := b, groups := gs,
    fullModelClip := fullModelClipEnable cfg,
    perGroupClipWrapped := false }

/-- The optimizer-type dispatch of `build_optimizer` (lines 319-329):
construct SGD or AdamW through `maybe_add_full_model_gradient_clipping`,
raise `NotImplementedError` on any other type tag. -/
def build_optimizer_select (cfg : SolverCfg) (gs : List Group) :
    Except PyError OptimizerObj :=
  if cfg.OPTIMIZER = "SGD" then
    Except.ok (maybe_add_full_model_gradient_clipping cfg BaseOpt.sgd gs)
  else if cfg.OPTIMIZER = "ADAMW" then
    Except.ok (maybe_add_full_model_gradient_clipping cfg BaseOpt.adamw gs)
  else Except.error (PyError.notImplemented ("no optimizer type " ++ cfg.OPTIMIZER))

/-- The tail of `build_optimizer` (lines 319-332): the optimizer-type
dispatch followed by the generic `maybe_add_gradient_clipping` wrapper,
which is applied unless the clip type is `full_model` (line 330). -/
def build_optimizer_final (cfg : SolverCfg) (gs : List Group) :
    Except PyError OptimizerObj :=
  match build_optimizer_select cfg gs with
  | Except.error e => Except.error e
  | Except.ok opt =>
    if !(cfg.CLIP_GRADIENTS_CLIP_TYPE = "full_model") then
      Except.ok { opt with perGroupClipWrapped := true }
    else Except.ok opt

/-- Function `Trainer.build_optimizer` in full. -/
def build_optimizer (cfg : SolverCfg) (model : Model) (flags : Nat → Bool) :
    Except PyError OptimizerObj :=
  build_optimizer_final cfg (build_optimizer_params cfg model flags)

/-! ## Evaluator dispatch (`Trainer.build_evaluator`, lines 155-196) -/

/-- The three task-mode flags read from
`cfg.MODEL.MASK_FORMER.TEST`. -/
structure TestCfg where
  PANOPTIC_ON : Bool
  SEMANTIC_ON : Bool
  INSTANCE_ON : Bool
deriving DecidableEq

/-- The evaluator classes the dispatch can instantiate. -/
inductive Evaluator where
  | imageNet
  | cocoPanoptic
  | semSeg
  | coco
deriving DecidableEq

/-- The `evaluator_list` accumulation of `build_evaluator`
(lines 169-185): one branch per recognized `evaluator_type`, each
evaluating a global class name (which may raise `NameError`) and
appending one instance; unrecognized types and the panoptic branch with
no enabled task-mode flag raise `NotImplementedError`. -/
def evaluatorListFor (cfg : TestCfg) (evaluatorType : String) (datasetName : String) :
    Except PyError (List Evaluator) :=
  if evaluatorType = "imagenet" then
    match refGlobal "ImageNetEvaluator" Evaluator.imageNet with
    | Except.ok e => Except.ok [e]
    | Except.error err => Except.error err
  else if evaluatorType = "coco_panoptic_seg" ∨ evaluatorType = "ade20k_panoptic_seg" then
    if cfg.PANOPTIC_ON then
      match refGlobal "COCOPanopticEvaluator" Evaluator.cocoPanoptic with
      | Except.ok e => Except.ok [e]
      | Except.error err => Except.error err
    else if cfg.SEMANTIC_ON then
      match refGlobal "SemSegEvaluator" Evaluator.semSeg with
      | Except.ok e => Except.ok [e]
      | Except.error err => Except.error err
    else if cfg.INSTANCE_ON then
      match refGlobal "COCOEvaluator" Evaluator.coco with
      | Except.ok e => Except.ok [e]
      | Except.error err => Except.error err
    else Except.error (PyError.notImplemented "Not support the evaluator type.")
  else if evaluatorType = "coco" then
    match refGlobal "COCOEvaluator" Evaluator.coco with
    | Except.ok e => Except.ok [e]
    | Except.error err => Except.error err
  else
    Except.error
      (PyError.notImplemented ("Not support the evaluator type " ++ datasetName))

/-- Function `Trainer.build_evaluator`: build `evaluator_list`, then return its
sole element, raising `NotImplementedError` when it is empty or holds
more than one evaluator (lines 187-196). -/
def build_evaluator (cfg : TestCfg) (evaluatorType : String) (datasetName : String) :
    Except PyError Evaluator :=
  match evaluatorListFor cfg evaluatorType datasetName with
  | Except.error err => Except.error err
  | Except.ok [] =>
    Except.error (PyError.notImplemented
      ("no Evaluator for the dataset " ++ datasetName ++ " with the type " ++ evaluatorType))
  | Except.ok [e] => Except.ok e
  | Except.ok (_ :: _ :: _) => Except.error (PyError.notImplemented "")

/-! ## Loader factories (`build_train_loader` lines 198-230,
`build_test_loader` lines 232-240) -/

/-- The dataset mapper classes referenced by the loader factories. -/
inductive Mapper where
  | cocoClip
  | openVocabCocoPano
  | entitySeg
  | uniVid
deriving DecidableEq

/-- A constructed data loader. -/
inductive Loader where
  | single (m : Mapper) (datasetName : String)
  | combined (pairs : List (Mapper × String))
deriving DecidableEq

/-- The mapper chosen for one training dataset name (the `if`/`elif`
chain of `build_train_loader`, lines 201-217); each branch evaluates the
mapper's global class name, which for `CocoClipDatasetMapper` raises
`NameError`. -/
def selectTrainMapper (datasetName : String) : Except PyError Mapper :=
  if (pyStartsWith datasetName "coco" && !(pyIn "panoptic" datasetName))
      || pyStartsWith datasetName "sa_1b" then
    refGlobal "CocoClipDatasetMapper" Mapper.cocoClip
  else if pyStartsWith datasetName "coco" && pyIn "panoptic" datasetName then
    refGlobal "OpenVocabularyCocoPanoClipDatasetMapper" Mapper.openVocabCocoPano
  else if pyStartsWith datasetName "entityseg" then
    refGlobal "EntitySegClipDatasetMapper" Mapper.entitySeg
  else
    refGlobal "UniVidDatasetMapper" Mapper.uniVid

/-- The `mappers` accumulation loop of `build_train_loader`: stops at
the first raised exception. -/
def buildMappers : List String → Except PyError (List Mapper)
  | [] => Except.ok []
  | d :: rest =>
    match selectTrainMapper d with
    | Except.error e => Except.error e
    | Except.ok m =>
      match buildMappers rest with
      | Except.error e => Except.error e
      | Except.ok ms => Except.ok (m :: ms)

/-- Function `Trainer.build_train_loader`: build one mapper per configured
training dataset, assert at least one, return a single loader for one
dataset and a ratio-combined loader otherwise. -/
def build_train_loader (datasets : List String) : Except PyError Loader :=
  match buildMappers datasets with
  | Except.error e => Except.error e
  | Except.ok mappers =>
    if !(mappers.length > 0) then
      Except.error (PyError.assertionError "No dataset is chosen!")
    else if mappers.length = 1 then
      Except.ok (Loader.single (mappers.headD Mapper.uniVid) (datasets.headD ""))
    else
      Except.ok (Loader.combined (mappers.zip datasets))

/-- Function `Trainer.build_test_loader`: the `CocoClipDatasetMapper` branch for
names starting with `coco`/`refcoco`/`lvis` (raising `NameError`), the
`UniVidDatasetMapper` branch otherwise. -/
def build_test_loader (datasetName : String) : Except PyError Loader :=
  if pyStartsWith datasetName "coco" || pyStartsWith datasetName "refcoco"
      || pyStartsWith datasetName "lvis" then
    match refGlobal "CocoClipDatasetMapper" Mapper.cocoClip with
    | Except.error e => Except.error e
    | Except.ok m => Except.ok (Loader.single m datasetName)
  else
    match refGlobal "UniVidDatasetMapper" Mapper.uniVid with
    | Except.error e => Except.error e
    | Except.ok m => Except.ok (Loader.single m datasetName)

/-! ## Test driver (`Trainer.test`, lines 334-388) -/

/-- A metrics dictionary returned by an evaluator run. -/
abbrev MetricsDict := List (String × Int)

/-- The mutable state of the test loop: the `results` ordered dict and
the warnings the logger has emitted. -/
structure TestState where
  results : List (String × MetricsDict)
  warnings : List String
deriving DecidableEq

/-- Python dict assignment `d[k] = v` on an insertion-ordered
association list: overwrite in place when the key exists, append
otherwise. -/
def odSet (acc : List (String × β)) (k : String) (v : β) : List (String × β) :=
  if acc.any (fun p => p.1 = k) then
    acc.map (fun p => if p.1 = k then (k, v) else p)
  else acc ++ [(k, v)]

/-- The warning logged when `build_evaluator` raises
`NotImplementedError` inside `Trainer.test`. -/
def noEvaluatorWarning : String :=
  "No evaluator found. Use `DefaultTrainer.test(evaluators=)`, or implement its `build_evaluator` method."

/-- One iteration of `Trainer.test`'s dataset loop (lines 358-384):
build the test loader, resolve the evaluator (the supplied one when the
caller passed `evaluators`, else `build_evaluator` with
`NotImplementedError` downgraded to an empty result plus a warning), run
inference, and store the result under the dataset name.  `evalType`
models the dataset-metadata catalog and `infer` the external
`inference_on_dataset`. -/
def testStep (evalType : String → String) (cfg : TestCfg)
    (infer : Evaluator → String → MetricsDict) (st : TestState)
    (dsEv : String × Option Evaluator) : Except PyError TestState :=
  match build_test_loader dsEv.1 with
  | Except.error e => Except.error e
  | Except.ok _ =>
    match dsEv.2 with
    | some ev =>
      Except.ok { st with results := odSet st.results dsEv.1 (infer ev dsEv.1) }
    | none =>
      match build_evaluator cfg (evalType dsEv.1) dsEv.1 with
      | Except.error (PyError.notImplemented _) =>
        Except.ok { results := odSet st.results dsEv.1 [],
                    warnings := st.warnings ++ [noEvaluatorWarning] }
      | Except.error e => Except.error e
      | Except.ok ev =>
        Except.ok { st with results := odSet st.results dsEv.1 (infer ev dsEv.1) }

/-- The dataset loop of `Trainer.test`. -/
def testLoop (evalType : String → String) (cfg : TestCfg)
    (infer : Evaluator → String → MetricsDict) :
    List (String × Option Evaluator) → TestState → Except PyError TestState
  | [], st => Except.ok st
  | p :: rest, st =>
    match testStep evalType cfg infer st p with
    | Except.error e => Except.error e
    | Except.ok st2 => testLoop evalType cfg infer rest st2

/-- What `Trainer.test` returns: the sole result dictionary when
`results` ended up with one entry, the name-keyed mapping otherwise. -/
inductive TestResult where
  | single (r : MetricsDict)
  | mapping (m : List (String × MetricsDict))
deriving DecidableEq

/-- Pair each requested dataset with its pre-built evaluator
(`evaluators[idx]`) when the caller supplied them, with `none`
otherwise. -/
def pairWithEvaluators (datasets : List String) :
    Option (List Evaluator) → List (String × Option Evaluator)
  | some evs => datasets.zip (evs.map some)
  | none => datasets.map (fun d => (d, none))

/-- Function `Trainer.test`: assert the supplied evaluator count matches, run the
dataset loop from an empty ordered dict, and collapse a single-entry
result dict to the bare dictionary (lines 350-388). -/
def trainer_test (evalType : String → String) (cfg : TestCfg)
    (infer : Evaluator → String → MetricsDict)
    (evaluators : Option (List Evaluator)) (datasets : List String) :
    Except PyError TestResult :=
  let lenOk : Except PyError Unit :=
    match evaluators with
    | some evs =>
      if datasets.length = evs.length then Except.ok ()
      else Except.error (PyError.assertionError "len(cfg.DATASETS.TEST) != len(evaluators)")
    | none => Except.ok ()
  match lenOk with
  | Except.error e => Except.error e
  | Except.ok _ =>
    match testLoop evalType cfg infer (pairWithEvaluators datasets evaluators)
        { results := [], warnings := [] } with
    | Except.error e => Except.error e
    | Except.ok st =>
      if st.results.length = 1 then
        Except.ok (TestResult.single (st.results.headD ("", [])).2)
      else
        Except.ok (TestResult.mapping st.results)

/-! ## Reference recursions used by the proofs -/

/-- Step function `optimStep` reshaped to consume an `OwnedParam` record. -/
def optimStepO (cfg : SolverCfg) (flags : Nat → Bool)
    (st : List Group × List Nat) (e : OwnedParam) : List Group × List Nat :=
  optimStep cfg flags e.moduleName e.kind st ⟨e.paramName, e.pid⟩

/-- The groups emitted by `build_optimizer`'s loop over a flat list of
owned-parameter records, starting from a given memo. -/
def groupsRefAux (cfg : SolverCfg) (flags : Nat → Bool) :
    List OwnedParam → List Nat → List Group
  | [], _ => []
  | e :: l, memo =>
    if flags e.pid = false then groupsRefAux cfg flags l memo
    else if e.pid ∈ memo then groupsRefAux cfg flags l memo
    else mkGroup cfg e :: groupsRefAux cfg flags l (e.pid :: memo)

/-- The memo contents after `build_optimizer`'s loop over a flat list of
owned-parameter records. -/
def memoRefAux (flags : Nat → Bool) : List OwnedParam → List Nat → List Nat
  | [], memo => memo
  | e :: l, memo =>
    if flags e.pid = false then memoRefAux flags l memo
    else if e.pid ∈ memo then memoRefAux flags l memo
    else memoRefAux flags l (e.pid :: memo)

/-- All parameter identities mentioned in a list of groups. -/
def flatParams (gs : List Group) : List Nat :=
  concatMap Group.params gs

/-! ## Concrete fixtures used by the witness theorems -/

/-- A small concrete solver configuration. -/
def cfgW : SolverCfg :=
  { BASE_LR := 2, WEIGHT_DECAY := 1, WEIGHT_DECAY_NORM := 5,
    WEIGHT_DECAY_EMBED := 7, BACKBONE_MULTIPLIER := 3, MOMENTUM := 0,
    OPTIMIZER := "SGD", CLIP_GRADIENTS_ENABLED := true,
    CLIP_GRADIENTS_CLIP_TYPE := "full_model", CLIP_GRADIENTS_CLIP_VALUE := 1 }

/-- A small concrete model enumeration: one root-owned parameter, one
decoder parameter on the allow-list, one backbone parameter, and one
normalization-layer parameter whose name matches the position-embedding
pattern. -/
def modelW : Model :=
  [⟨"", ModuleKind.other, [⟨"pos_weight", 0⟩]⟩,
   ⟨"sam_mask_decoder.queries", ModuleKind.other, [⟨"weight", 1⟩]⟩,
   ⟨"image_encoder.trunk", ModuleKind.other, [⟨"w", 2⟩]⟩,
   ⟨"image_encoder.norm1", ModuleKind.norm, [⟨"absolute_pos_embed", 3⟩]⟩]

/-- A metadata catalog mapping every dataset to the (unrecognized)
evaluator type `"ytvis"`. -/
def evalTypeW : String → String := fun _ => "ytvis"

/-- A metadata catalog mapping every dataset to the evaluator type
`"coco"`. -/
def evalTypeCocoW : String → String := fun _ => "coco"

/-- A concrete stand-in for `inference_on_dataset`. -/
def inferW : Evaluator → String → MetricsDict := fun _ d => [(d, 1)]

/-! ## Helper lemmas -/

theorem mem_concatMap {α β : Type} (f : α → List β) (b : β) :
    ∀ (l : List α), b ∈ concatMap f l ↔ ∃ a ∈ l, b ∈ f a := by
  intro l
  induction l with
  | nil => simp [concatMap]
  | cons a l ih => simp [concatMap, ih]

theorem flatParams_nil : flatParams [] = [] := rfl

theorem flatParams_cons (g : Group) (gs : List Group) :
    flatParams (g :: gs) = g.params ++ flatParams gs := rfl

theorem refGlobal_ok {α : Type} (n : String) (v : α) (h : n ∈ moduleScope) :
    refGlobal n v = Except.ok v := by
  simp [refGlobal, h]

theorem refGlobal_nameError {α : Type} (n : String) (v : α) (h : ¬(n ∈ moduleScope)) :
    refGlobal n v = Except.error (PyError.nameError n) := by
  simp [refGlobal, h]

theorem foldl_params_owned (cfg : SolverCfg) (flags : Nat → Bool) (m : NamedModule)
    (st : List Group × List Nat) :
    m.params.foldl (optimStep cfg flags m.mname m.kind) st
      = (ownedOfModule m).foldl (optimStepO cfg flags) st := by
  rw [ownedOfModule, List.foldl_map]
  rfl

theorem build_params_flat (cfg : SolverCfg) (flags : Nat → Bool) :
    ∀ (ms : Model) (st : List Group × List Nat),
      ms.foldl (fun st m => m.params.foldl (optimStep cfg flags m.mname m.kind) st) st
        = (enumOwned ms).foldl (optimStepO cfg flags) st := by
  intro ms
  induction ms with
  | nil => intro st; rfl
  | cons m ms ih =>
    intro st
    rw [List.foldl_cons, ih]
    simp only [enumOwned, concatMap, List.foldl_append]
    rw [← foldl_params_owned]

theorem foldl_optimStepO_eq (cfg : SolverCfg) (flags : Nat → Bool) :
    ∀ (l : List OwnedParam) (gs : List Group) (memo : List Nat),
      l.foldl (optimStepO cfg flags) (gs, memo)
        = (gs ++ groupsRefAux cfg flags l memo, memoRefAux flags l memo) := by
  intro l
  induction l with
  | nil => intro gs memo; simp [groupsRefAux, memoRefAux]
  | cons e l ih =>
    intro gs memo
    rw [List.foldl_cons]
    by_cases h1 : flags e.pid = false
    · have hstep : optimStepO cfg flags (gs, memo) e = (gs, memo) := by
        simp [optimStepO, optimStep, h1]
      rw [hstep, ih, groupsRefAux, memoRefAux, if_pos h1, if_pos h1]
    · by_cases h2 : e.pid ∈ memo
      · have hstep : optimStepO cfg flags (gs, memo) e = (gs, memo) := by
          simp [optimStepO, optimStep, h1, h2]
        rw [hstep, ih, groupsRefAux, memoRefAux, if_neg h1, if_neg h1,
          if_pos h2, if_pos h2]
      · have hstep : optimStepO cfg flags (gs, memo) e
            = (gs ++ [mkGroup cfg e], e.pid :: memo) := by
          simp [optimStepO, optimStep, h1, h2]
        rw [hstep, ih, groupsRefAux, memoRefAux, if_neg h1, if_neg h1,
          if_neg h2, if_neg h2, List.append_assoc, List.singleton_append]

theorem build_optimizer_params_eq (cfg : SolverCfg) (model : Model)
    (flags : Nat → Bool) :
    build_optimizer_params cfg model flags
      = groupsRefAux cfg flags (enumOwned model) [] := by
  rw [build_optimizer_params, build_params_flat, foldl_optimStepO_eq]
  rfl

theorem mem_flatParams_groupsRef (cfg : SolverCfg) (flags : Nat → Bool) :
    ∀ (l : List OwnedParam) (memo : List Nat) (i : Nat),
      i ∈ flatParams (groupsRefAux cfg flags l memo) →
        flags i = true ∧ i ∉ memo := by
  intro l
  induction l with
  | nil => intro memo i h; simp [groupsRefAux, flatParams, concatMap] at h
  | cons e l ih =>
    intro memo i
    rw [groupsRefAux]
    by_cases h1 : flags e.pid = false
    · rw [if_pos h1]; exact ih memo i
    · rw [if_neg h1]
      by_cases h2 : e.pid ∈ memo
      · rw [if_pos h2]; exact ih memo i
      · rw [if_neg h2]
        intro hmem
        rw [flatParams_cons] at hmem
        rcases List.mem_append.mp hmem with hl | hr
        · have hi : i = e.pid := by
            simpa [mkGroup] using hl
          subst hi
          exact ⟨Bool.not_eq_false _ ▸ (by simpa using h1), h2⟩
        · have := ih (e.pid :: memo) i hr
          exact ⟨this.1, fun hmem2 => this.2 (List.mem_cons_of_mem _ hmem2)⟩

theorem nodup_flatParams_groupsRef (cfg : SolverCfg) (flags : Nat → Bool) :
    ∀ (l : List OwnedParam) (memo : List Nat),
      (flatParams (groupsRefAux cfg flags l memo)).Nodup := by
  intro l
  induction l with
  | nil => intro memo; simp [groupsRefAux, flatParams, concatMap]
  | cons e l ih =>
    intro memo
    rw [groupsRefAux]
    by_cases h1 : flags e.pid = false
    · rw [if_pos h1]; exact ih memo
    · rw [if_neg h1]
      by_cases h2 : e.pid ∈ memo
      · rw [if_pos h2]; exact ih memo
      · rw [if_neg h2, flatParams_cons]
        have hparams : (mkGroup cfg e).params = [e.pid] := rfl
        rw [hparams]
        refine List.nodup_append.mpr ⟨List.nodup_singleton _, ih _, ?_⟩
        intro a ha hb
        have ha' : a = e.pid := by simpa using ha
        subst ha'
        have := mem_flatParams_groupsRef cfg flags l (e.pid :: memo) _ hb
        exact this.2 (List.mem_cons_self _ _)

theorem groupsRef_shape (cfg : SolverCfg) (flags : Nat → Bool) :
    ∀ (l : List OwnedParam) (memo : List Nat) (g : Group),
      g ∈ groupsRefAux cfg flags l memo →
        ∃ e, e ∈ l ∧ g = mkGroup cfg e ∧ flags e.pid = true := by
  intro l
  induction l with
  | nil => intro memo g h; simp [groupsRefAux] at h
  | cons e l ih =>
    intro memo g
    rw [groupsRefAux]
    by_cases h1 : flags e.pid = false
    · rw [if_pos h1]
      intro h
      obtain ⟨e', he', hg, hf⟩ := ih memo g h
      exact ⟨e', List.mem_cons_of_mem _ he', hg, hf⟩
    · rw [if_neg h1]
      by_cases h2 : e.pid ∈ memo
      · rw [if_pos h2]
        intro h
        obtain ⟨e', he', hg, hf⟩ := ih memo g h
        exact ⟨e', List.mem_cons_of_mem _ he', hg, hf⟩
      · rw [if_neg h2]
        intro h
        rcases List.mem_cons.mp h with hg | hg
        · exact ⟨e, List.mem_cons_self _ _, hg, by simpa using h1⟩
        · obtain ⟨e', he', hge, hf⟩ := ih _ g hg
          exact ⟨e', List.mem_cons_of_mem _ he', hge, hf⟩

theorem groupsRef_complete (cfg : SolverCfg) (flags : Nat → Bool) :
    ∀ (l : List OwnedParam) (memo : List Nat) (e : OwnedParam),
      (l.map OwnedParam.pid).Nodup →
      (∀ j ∈ l.map OwnedParam.pid, j ∉ memo) →
      e ∈ l → flags e.pid = true →
      mkGroup cfg e ∈ groupsRefAux cfg flags l memo := by
  intro l
  induction l with
  | nil => intro memo e _ _ he; exact absurd he (List.not_mem_nil e)
  | cons a l ih =>
    intro memo e hnodup hdisj he hf
    rw [groupsRefAux]
    rcases List.mem_cons.mp he with rfl | he'
    · rw [if_neg (by simp [hf]), if_neg (hdisj e.pid (by simp))]
      exact List.mem_cons_self _ _
    · have hnodup' : (l.map OwnedParam.pid).Nodup :=
        (List.nodup_cons.mp (by simpa using hnodup)).2
      by_cases h1 : flags a.pid = false
      · rw [if_pos h1]
        exact ih memo e hnodup'
          (fun j hj => hdisj j (List.mem_cons_of_mem _ hj)) he' hf
      · rw [if_neg h1]
        by_cases h2 : a.pid ∈ memo
        · rw [if_pos h2]
          exact ih memo e hnodup'
            (fun j hj => hdisj j (List.mem_cons_of_mem _ hj)) he' hf
        · rw [if_neg h2]
          refine List.mem_cons_of_mem _ ?_
          refine ih (a.pid :: memo) e hnodup' ?_ he' hf
          intro j hj
          have hja : j ≠ a.pid := by
            intro heq
            subst heq
            exact (List.nodup_cons.mp (by simpa using hnodup)).1 hj
          intro hjm
          rcases List.mem_cons.mp hjm with h | h
          · exact hja h
          · exact hdisj j (List.mem_cons_of_mem _ hj) h

theorem build_params_nodup (cfg : SolverCfg) (model : Model) (flags : Nat → Bool) :
    (flatParams (build_optimizer_params cfg model flags)).Nodup := by
  rw [build_optimizer_params_eq]
  exact nodup_flatParams_groupsRef cfg flags _ []

theorem build_params_trainable (cfg : SolverCfg) (model : Model) (flags : Nat → Bool) :
    ∀ g ∈ build_optimizer_params cfg model flags, ∀ q ∈ g.params, flags q = true := by
  intro g hg q hq
  have hmem : q ∈ flatParams (build_optimizer_params cfg model flags) :=
    (mem_concatMap Group.params q _).mpr ⟨g, hg, hq⟩
  rw [build_optimizer_params_eq] at hmem
  exact (mem_flatParams_groupsRef cfg flags _ [] q hmem).1

theorem build_params_complete (cfg : SolverCfg) (model : Model) (flags : Nat → Bool)
    (e : OwnedParam) (hnodup : ((enumOwned model).map OwnedParam.pid).Nodup)
    (he : e ∈ enumOwned model) (hf : flags e.pid = true) :
    mkGroup cfg e ∈ build_optimizer_params cfg model flags := by
  rw [build_optimizer_params_eq]
  exact groupsRef_complete cfg flags _ [] e hnodup (by simp) he hf

theorem computeWD_last_rule (cfg : SolverCfg) (paramName : String) (kind : ModuleKind) :
    computeWD cfg paramName kind
      = (if kind = ModuleKind.embedding then cfg.WEIGHT_DECAY_EMBED
         else if kind = ModuleKind.norm then cfg.WEIGHT_DECAY_NORM
         else if (pyIn "relative_position_bias_table" paramName
            || pyIn "absolute_pos_embed" paramName) = true then 0
         else cfg.WEIGHT_DECAY) := by
  cases kind <;> simp [computeWD]

theorem computeLR_backbone (cfg : SolverCfg) (moduleName : String) :
    computeLR cfg moduleName
      = (if (pyIn "image_encoder" moduleName && !(pyIn "ctm" moduleName)) = true
         then cfg.BASE_LR * cfg.BACKBONE_MULTIPLIER
         else cfg.BASE_LR) := by
  rw [computeLR]
  by_cases h1 : pyIn "image_encoder" moduleName = true
  · by_cases h2 : pyIn "ctm" moduleName = true <;> simp [h1, h2]
  · simp [Bool.not_eq_true _ ▸ h1, (by simpa using h1 : pyIn "image_encoder" moduleName = false)]

theorem dedupByIdAux_of_nodup :
    ∀ (l : List (String × Nat)) (seen : List Nat),
      (l.map Prod.snd).Nodup → (∀ i ∈ l.map Prod.snd, i ∉ seen) →
      dedupByIdAux l seen = l := by
  intro l
  induction l with
  | nil => intro seen _ _; rfl
  | cons p l ih =>
    intro seen hnodup hdisj
    obtain ⟨n, i⟩ := p
    rw [dedupByIdAux, if_neg (hdisj i (by simp))]
    congr 1
    refine ih (i :: seen) (List.nodup_cons.mp (by simpa using hnodup)).2 ?_
    intro j hj hjm
    rcases List.mem_cons.mp hjm with h | h
    · subst h
      exact (List.nodup_cons.mp (by simpa using hnodup)).1 hj
    · exact hdisj j (List.mem_cons_of_mem _ hj) h

theorem namedParams_of_nodup (model : Model)
    (h : ((namedParamsRaw model).map Prod.snd).Nodup) :
    namedParams model = namedParamsRaw model :=
  dedupByIdAux_of_nodup _ [] h (by simp)

theorem foldl_mask_not_mem (allow : List String) :
    ∀ (l : List (String × Nat)) (f : Nat → Bool) (q : Nat),
      q ∉ l.map Prod.snd →
      (l.foldl (fun f p => fun r => if r = p.2 then startsWithAny allow p.1 else f r) f) q
        = f q := by
  intro l
  induction l with
  | nil => intro f q _; rfl
  | cons p l ih =>
    intro f q hq
    rw [List.foldl_cons, ih]
    · have : ¬(q = p.2) := fun h => hq (by simp [h])
      simp [this]
    · intro h
      exact hq (by simp [List.mem_cons]; right; simpa using h)

theorem foldl_mask_eval (allow : List String) :
    ∀ (l : List (String × Nat)) (f : Nat → Bool) (n : String) (pid : Nat),
      (l.map Prod.snd).Nodup → (n, pid) ∈ l →
      (l.foldl (fun f p => fun r => if r = p.2 then startsWithAny allow p.1 else f r) f) pid
        = startsWithAny allow n := by
  intro l
  induction l with
  | nil => intro f n pid _ h; exact absurd h (List.not_mem_nil _)
  | cons p l ih =>
    intro f n pid hnodup hmem
    rcases List.mem_cons.mp hmem with rfl | hmem'
    · rw [List.foldl_cons,
        foldl_mask_not_mem allow l _ pid (List.nodup_cons.mp (by simpa using hnodup)).1]
      simp
    · rw [List.foldl_cons]
      exact ih _ n pid (List.nodup_cons.mp (by simpa using hnodup)).2 hmem'

theorem build_evaluator_cases (cfg : TestCfg) (ty d : String) (h : ty ≠ "imagenet") :
    (∃ ev, build_evaluator cfg ty d = Except.ok ev) ∨
    (∃ msg, build_evaluator cfg ty d = Except.error (PyError.notImplemented msg)) := by
  rw [build_evaluator, evaluatorListFor, if_neg h]
  by_cases hp : ty = "coco_panoptic_seg" ∨ ty = "ade20k_panoptic_seg"
  · rw [if_pos hp]
    by_cases h1 : cfg.PANOPTIC_ON = true
    · rw [if_pos h1, refGlobal_ok _ _ (by decide)]
      exact Or.inl ⟨_, rfl⟩
    · rw [if_neg h1]
      by_cases h2 : cfg.SEMANTIC_ON = true
      · rw [if_pos h2, refGlobal_ok _ _ (by decide)]
        exact Or.inl ⟨_, rfl⟩
      · rw [if_neg h2]
        by_cases h3 : cfg.INSTANCE_ON = true
        · rw [if_pos h3, refGlobal_ok _ _ (by decide)]
          exact Or.inl ⟨_, rfl⟩
        · rw [if_neg h3]
          exact Or.inr ⟨_, rfl⟩
  · rw [if_neg hp]
    by_cases hc : ty = "coco"
    · rw [if_pos hc, refGlobal_ok _ _ (by decide)]
      exact Or.inl ⟨_, rfl⟩
    · rw [if_neg hc]
      exact Or.inr ⟨_, rfl⟩

theorem build_test_loader_uniVid (d : String)
    (hload : (pyStartsWith d "coco" || pyStartsWith d "refcoco"
      || pyStartsWith d "lvis") = false) :
    build_test_loader d = Except.ok (Loader.single Mapper.uniVid d) := by
  rw [build_test_loader, if_neg (by simp [hload]), refGlobal_ok _ _ (by decide)]

theorem odSet_keys {β : Type} (acc : List (String × β)) (k : String) (v : β) :
    (odSet acc k v).map Prod.fst
      = if k ∈ acc.map Prod.fst then acc.map Prod.fst
        else acc.map Prod.fst ++ [k] := by
  rw [odSet]
  by_cases h : acc.any (fun p => p.1 = k) = true
  · have hk : k ∈ acc.map Prod.fst := by
      obtain ⟨p, hp, hpk⟩ := List.any_eq_true.mp h
      have hpk' : p.1 = k := of_decide_eq_true hpk
      exact hpk' ▸ List.mem_map_of_mem Prod.fst hp
    rw [if_pos h, if_pos hk]
    rw [List.map_map]
    refine List.map_congr_left ?_
    intro p _
    by_cases hp : p.1 = k
    · simp [hp]
    · simp [hp]
  · rw [if_neg h, if_neg ?_]
    · simp
    · intro hk
      apply h
      rw [List.any_eq_true]
      obtain ⟨p, hp, hpk⟩ := List.mem_map.mp hk
      exact ⟨p, hp, by simp [hpk]⟩

theorem odSet_keys_mem {β : Type} (acc : List (String × β)) (k k' : String) (v : β) :
    k' ∈ (odSet acc k v).map Prod.fst ↔ k' ∈ acc.map Prod.fst ∨ k' = k := by
  rw [odSet_keys]
  by_cases h : k ∈ acc.map Prod.fst
  · rw [if_pos h]
    constructor
    · exact Or.inl
    · rintro (hk | rfl)
      · exact hk
      · exact h
  · rw [if_neg h]
    simp

theorem odSet_keys_nodup {β : Type} (acc : List (String × β)) (k : String) (v : β)
    (h : (acc.map Prod.fst).Nodup) : ((odSet acc k v).map Prod.fst).Nodup := by
  rw [odSet_keys]
  by_cases hk : k ∈ acc.map Prod.fst
  · rwa [if_pos hk]
  · rw [if_neg hk]
    refine List.nodup_append.mpr ⟨h, List.nodup_singleton _, ?_⟩
    intro a ha hb
    have : a = k := by simpa using hb
    subst this
    exact hk ha

theorem testStep_ok (evalType : String → String) (cfg : TestCfg)
    (infer : Evaluator → String → MetricsDict) (st : TestState) (d : String)
    (hload : (pyStartsWith d "coco" || pyStartsWith d "refcoco"
      || pyStartsWith d "lvis") = false)
    (himg : evalType d ≠ "imagenet") :
    ∃ res w, testStep evalType cfg infer st (d, none)
      = Except.ok { results := odSet st.results d res,
                    warnings := st.warnings ++ w } := by
  rw [testStep]
  rw [show (d, (none : Option Evaluator)).1 = d from rfl]
  rw [build_test_loader_uniVid d hload]
  rcases build_evaluator_cases cfg (evalType d) d himg with ⟨ev, hev⟩ | ⟨msg, hev⟩
  · refine ⟨infer ev d, [], ?_⟩
    rw [show (d, (none : Option Evaluator)).2 = (none : Option Evaluator) from rfl, hev]
    simp
  · refine ⟨[], [noEvaluatorWarning], ?_⟩
    rw [show (d, (none : Option Evaluator)).2 = (none : Option Evaluator) from rfl, hev]

theorem testLoop_ok (evalType : String → String) (cfg : TestCfg)
    (infer : Evaluator → String → MetricsDict) :
    ∀ (ds : List String) (st : TestState),
      (∀ d ∈ ds, (pyStartsWith d "coco" || pyStartsWith d "refcoco"
        || pyStartsWith d "lvis") = false) →
      (∀ d ∈ ds, evalType d ≠ "imagenet") →
      ∃ st' : TestState,
        testLoop evalType cfg infer (ds.map (fun d => (d, none))) st = Except.ok st'
        ∧ (∀ k, k ∈ st'.results.map Prod.fst ↔
            k ∈ st.results.map Prod.fst ∨ k ∈ ds)
        ∧ ((st.results.map Prod.fst).Nodup → (st'.results.map Prod.fst).Nodup) := by
  intro ds
  induction ds with
  | nil =>
    intro st _ _
    exact ⟨st, rfl, by simp, id⟩
  | cons d ds ih =>
    intro st hload himg
    obtain ⟨res, w, hstep⟩ :=
      testStep_ok evalType cfg infer st d (hload d (by simp)) (himg d (by simp))
    obtain ⟨st', hloop, hkeys, hnodup⟩ :=
      ih { results := odSet st.results d res, warnings := st.warnings ++ w }
        (fun x hx => hload x (List.mem_cons_of_mem _ hx))
        (fun x hx => himg x (List.mem_cons_of_mem _ hx))
    refine ⟨st', ?_, ?_, ?_⟩
    · rw [List.map_cons, testLoop, hstep]
      exact hloop
    · intro k
      rw [hkeys k]
      show k ∈ (odSet st.results d res).map Prod.fst ∨ k ∈ ds ↔ _
      rw [odSet_keys_mem]
      constructor
      · rintro ((hk | rfl) | hk)
        · exact Or.inl hk
        · exact Or.inr (by simp)
        · exact Or.inr (List.mem_cons_of_mem _ hk)
      · rintro (hk | hk)
        · exact Or.inl (Or.inl hk)
        · rcases List.mem_cons.mp hk with rfl | hk'
          · exact Or.inl (Or.inr rfl)
          · exact Or.inr hk'
    · intro hn
      exact hnodup (odSet_keys_nodup _ _ _ hn)

theorem trainer_test_single (evalType : String → String) (cfg : TestCfg)
    (infer : Evaluator → String → MetricsDict) (d : String)
    (hload : (pyStartsWith d "coco" || pyStartsWith d "refcoco"
      || pyStartsWith d "lvis") = false)
    (himg : evalType d ≠ "imagenet") :
    ∃ r, trainer_test evalType cfg infer none [d]
      = Except.ok (TestResult.single r) := by
  obtain ⟨res, w, hstep⟩ :=
    testStep_ok evalType cfg infer { results := [], warnings := [] } d hload himg
  refine ⟨res, ?_⟩
  rw [trainer_test]
  simp only [pairWithEvaluators, List.map_cons, List.map_nil, testLoop]
  rw [hstep]
  simp [odSet, testLoop]

theorem trainer_test_mapping (evalType : String → String) (cfg : TestCfg)
    (infer : Evaluator → String → MetricsDict) (datasets : List String)
    (hload : ∀ d ∈ datasets, (pyStartsWith d "coco" || pyStartsWith d "refcoco"
      || pyStartsWith d "lvis") = false)
    (himg : ∀ d ∈ datasets, evalType d ≠ "imagenet")
    (hcard : 2 ≤ datasets.toFinset.card) :
    ∃ m, trainer_test evalType cfg infer none datasets
        = Except.ok (TestResult.mapping m)
      ∧ (m.map Prod.fst).Nodup
      ∧ ∀ k, k ∈ m.map Prod.fst ↔ k ∈ datasets := by
  obtain ⟨st', hloop, hkeys, hnodup⟩ :=
    testLoop_ok evalType cfg infer datasets { results := [], warnings := [] }
      hload himg
  have hnodup' : (st'.results.map Prod.fst).Nodup := hnodup (by simp)
  have hmem : ∀ k, k ∈ st'.results.map Prod.fst ↔ k ∈ datasets := by
    intro k
    rw [hkeys k]
    simp
  have hlen : st'.results.length = datasets.toFinset.card := by
    have h1 : (st'.results.map Prod.fst).toFinset = datasets.toFinset := by
      ext k
      simp only [List.mem_toFinset]
      exact hmem k
    calc st'.results.length
        = (st'.results.map Prod.fst).length := (List.length_map _ _).symm
      _ = (st'.results.map Prod.fst).toFinset.card :=
          (List.toFinset_card_of_nodup hnodup').symm
      _ = datasets.toFinset.card := by rw [h1]
  refine ⟨st'.results, ?_, hnodup', hmem⟩
  rw [trainer_test]
  simp only [pairWithEvaluators]
  rw [hloop]
  show (if st'.results.length = 1 then
          Except.ok (TestResult.single (st'.results.headD ("", [])).2)
        else Except.ok (TestResult.mapping st'.results))
      = Except.ok (TestResult.mapping st'.results)
  rw [if_neg (by rw [hlen]; omega)]

theorem selectTrainMapper_cases (d : String) :
    (∃ m, selectTrainMapper d = Except.ok m) ∨
    selectTrainMapper d = Except.error (PyError.nameError "CocoClipDatasetMapper") := by
  rw [selectTrainMapper]
  by_cases h1 : ((pyStartsWith d "coco" && !(pyIn "panoptic" d))
      || pyStartsWith d "sa_1b") = true
  · rw [if_pos h1, refGlobal_nameError _ _ (by decide)]
    exact Or.inr rfl
  · rw [if_neg h1]
    by_cases h2 : (pyStartsWith d "coco" && pyIn "panoptic" d) = true
    · rw [if_pos h2, refGlobal_ok _ _ (by decide)]
      exact Or.inl ⟨_, rfl⟩
    · rw [if_neg h2]
      by_cases h3 : pyStartsWith d "entityseg" = true
      · rw [if_pos h3, refGlobal_ok _ _ (by decide)]
        exact Or.inl ⟨_, rfl⟩
      · rw [if_neg h3, refGlobal_ok _ _ (by decide)]
        exact Or.inl ⟨_, rfl⟩

theorem buildMappers_error :
    ∀ (l : List String) (ds : String), ds ∈ l →
      selectTrainMapper ds = Except.error (PyError.nameError "CocoClipDatasetMapper") →
      buildMappers l = Except.error (PyError.nameError "CocoClipDatasetMapper") := by
  intro l
  induction l with
  | nil => intro ds h; exact absurd h (List.not_mem_nil _)
  | cons a l ih =>
    intro ds hmem herr
    rcases List.mem_cons.mp hmem with rfl | hmem'
    · rw [buildMappers, herr]
    · rcases selectTrainMapper_cases a with ⟨m, hm⟩ | hm
      · rw [buildMappers, hm, ih ds hmem' herr]
      · rw [buildMappers, hm]

theorem build_optimizer_select_ok (cfg : SolverCfg) (gs : List Group)
    (opt : OptimizerObj) (h : build_optimizer_select cfg gs = Except.ok opt) :
    opt.fullModelClip = fullModelClipEnable cfg
      ∧ opt.perGroupClipWrapped = false := by
  rw [build_optimizer_select] at h
  by_cases h1 : cfg.OPTIMIZER = "SGD"
  · rw [if_pos h1] at h
    cases h
    exact ⟨rfl, rfl⟩
  · rw [if_neg h1] at h
    by_cases h2 : cfg.OPTIMIZER = "ADAMW"
    · rw [if_pos h2] at h
      cases h
      exact ⟨rfl, rfl⟩
    · rw [if_neg h2] at h
      cases h

/-! ## Claim theorems and witnesses -/

/-- Claim C1: after the selective fine-tuning mask of `build_model` is
applied, a parameter's trainability flag is true iff its qualified name
starts with some name in the configured allow-list, and no frozen
(non-trainable) parameter appears in any optimization group emitted by
`build_optimizer` (stated for models without parameter sharing, so that
a qualified name identifies its parameter). -/
theorem claim_C1 (cfg : SolverCfg) (model : Model) (flags0 : Nat → Bool)
    (allow : List String) (n : String) (pid : Nat)
    (hnodup : ((namedParamsRaw model).map Prod.snd).Nodup)
    (hmem : (n, pid) ∈ namedParamsRaw model) :
    apply_tuning_mask allow model flags0 pid = startsWithAny allow n
    ∧ ∀ g ∈ build_optimizer_params cfg model (apply_tuning_mask allow model flags0),
        ∀ q ∈ g.params, apply_tuning_mask allow model flags0 q = true := by
  constructor
  · rw [apply_tuning_mask, namedParams_of_nodup model hnodup]
    exact foldl_mask_eval allow _ flags0 n pid hnodup hmem
  · exact build_params_trainable cfg model _

/-- Witness for C1 at a concrete model and the source's
`tune_name_list`. -/
theorem claim_C1_witness :
    apply_tuning_mask tune_name_list modelW (fun _ => false) 1
        = startsWithAny tune_name_list "sam_mask_decoder.queries.weight"
    ∧ ∀ g ∈ build_optimizer_params cfgW modelW
          (apply_tuning_mask tune_name_list modelW (fun _ => false)),
        ∀ q ∈ g.params,
          apply_tuning_mask tune_name_list modelW (fun _ => false) q = true :=
  claim_C1 cfgW modelW (fun _ => false) tune_name_list
    "sam_mask_decoder.queries.weight" 1 (by decide) (by decide)

/-- Claim C2: the optimization groups emitted by `build_optimizer`
mention each parameter identity at most once, even when the same
parameter object is reachable through multiple module paths. -/
theorem claim_C2 (cfg : SolverCfg) (model : Model) (flags : Nat → Bool) :
    (flatParams (build_optimizer_params cfg model flags)).Nodup :=
  build_params_nodup cfg model flags

/-- Counterexample to C3 as stated: with two task-mode flags enabled
(panoptic and semantic) on a panoptic-tagged dataset, `build_evaluator`
returns an evaluator instead of raising a fatal setup error — the
`elif` chain lets the first enabled flag win. -/
theorem claim_C3_cex :
    build_evaluator ⟨true, true, false⟩ "coco_panoptic_seg" "coco_2017_val_panoptic"
      = Except.ok Evaluator.cocoPanoptic := by
  decide

/-- Claim C3 as amended: on a panoptic-style dataset, zero enabled
task-mode flags raise `NotImplementedError`; otherwise the first enabled
flag in the order panoptic, semantic, instance selects the single
returned evaluator (so with exactly one flag enabled exactly one
evaluator is returned, but two or more enabled flags do not raise). -/
theorem claim_C3 (fl : TestCfg) (ty d : String)
    (hty : ty = "coco_panoptic_seg" ∨ ty = "ade20k_panoptic_seg") :
    (fl.PANOPTIC_ON = false → fl.SEMANTIC_ON = false → fl.INSTANCE_ON = false →
      build_evaluator fl ty d
        = Except.error (PyError.notImplemented "Not support the evaluator type."))
    ∧ (fl.PANOPTIC_ON = true →
      build_evaluator fl ty d = Except.ok Evaluator.cocoPanoptic)
    ∧ (fl.PANOPTIC_ON = false → fl.SEMANTIC_ON = true →
      build_evaluator fl ty d = Except.ok Evaluator.semSeg)
    ∧ (fl.PANOPTIC_ON = false → fl.SEMANTIC_ON = false → fl.INSTANCE_ON = true →
      build_evaluator fl ty d = Except.ok Evaluator.coco) := by
  have himg : ¬(ty = "imagenet") := by
    rcases hty with rfl | rfl <;> decide
  refine ⟨?_, ?_, ?_, ?_⟩
  · intro h1 h2 h3
    rw [build_evaluator, evaluatorListFor, if_neg himg, if_pos hty,
      if_neg (by simp [h1]), if_neg (by simp [h2]), if_neg (by simp [h3])]
  · intro h1
    rw [build_evaluator, evaluatorListFor, if_neg himg, if_pos hty,
      if_pos h1, refGlobal_ok _ _ (by decide)]
  · intro h1 h2
    rw [build_evaluator, evaluatorListFor, if_neg himg, if_pos hty,
      if_neg (by simp [h1]), if_pos h2, refGlobal_ok _ _ (by decide)]
  · intro h1 h2 h3
    rw [build_evaluator, evaluatorListFor, if_neg himg, if_pos hty,
      if_neg (by simp [h1]), if_neg (by simp [h2]), if_pos h3,
      refGlobal_ok _ _ (by decide)]

/-- Witness for the amended C3 at a concrete configuration with exactly
the semantic flag enabled. -/
theorem claim_C3_witness :
    ((⟨false, true, false⟩ : TestCfg).PANOPTIC_ON = false →
      (⟨false, true, false⟩ : TestCfg).SEMANTIC_ON = false →
      (⟨false, true, false⟩ : TestCfg).INSTANCE_ON = false →
      build_evaluator ⟨false, true, false⟩ "coco_panoptic_seg" "ade20k_val"
        = Except.error (PyError.notImplemented "Not support the evaluator type."))
    ∧ ((⟨false, true, false⟩ : TestCfg).PANOPTIC_ON = true →
      build_evaluator ⟨false, true, false⟩ "coco_panoptic_seg" "ade20k_val"
        = Except.ok Evaluator.cocoPanoptic)
    ∧ ((⟨false, true, false⟩ : TestCfg).PANOPTIC_ON = false →
      (⟨false, true, false⟩ : TestCfg).SEMANTIC_ON = true →
      build_evaluator ⟨false, true, false⟩ "coco_panoptic_seg" "ade20k_val"
        = Except.ok Evaluator.semSeg)
    ∧ ((⟨false, true, false⟩ : TestCfg).PANOPTIC_ON = false →
      (⟨false, true, false⟩ : TestCfg).SEMANTIC_ON = false →
      (⟨false, true, false⟩ : TestCfg).INSTANCE_ON = true →
      build_evaluator ⟨false, true, false⟩ "coco_panoptic_seg" "ade20k_val"
        = Except.ok Evaluator.coco) :=
  claim_C3 ⟨false, true, false⟩ "coco_panoptic_seg" "ade20k_val" (Or.inl rfl)

/-- Claim C4: the weight decay assigned by `build_optimizer` to a
trainable parameter is determined by the last applicable override rule
in the fixed order position-embedding pattern, then normalization
module, then embedding module; in particular a normalization-layer
parameter whose name matches the position-embedding pattern receives
`WEIGHT_DECAY_NORM`, not zero. -/
theorem claim_C4 (cfg : SolverCfg) (model : Model) (flags : Nat → Bool)
    (e : OwnedParam)
    (hnodup : ((enumOwned model).map OwnedParam.pid).Nodup)
    (he : e ∈ enumOwned model) (htr : flags e.pid = true) :
    ∃ g ∈ build_optimizer_params cfg model flags,
      g.params = [e.pid]
      ∧ g.weight_decay
          = (if e.kind = ModuleKind.embedding then cfg.WEIGHT_DECAY_EMBED
             else if e.kind = ModuleKind.norm then cfg.WEIGHT_DECAY_NORM
             else if (pyIn "relative_position_bias_table" e.paramName
                || pyIn "absolute_pos_embed" e.paramName) = true then 0
             else cfg.WEIGHT_DECAY)
      ∧ ((pyIn "relative_position_bias_table" e.paramName
            || pyIn "absolute_pos_embed" e.paramName) = true →
          e.kind = ModuleKind.norm →
          g.weight_decay = cfg.WEIGHT_DECAY_NORM) := by
  refine ⟨mkGroup cfg e,
    build_params_complete cfg model flags e hnodup he htr, rfl, ?_, ?_⟩
  · exact computeWD_last_rule cfg e.paramName e.kind
  · intro hpat hk
    rw [show (mkGroup cfg e).weight_decay = computeWD cfg e.paramName e.kind from rfl,
      computeWD_last_rule, hk]
    simp

/-- Witness for C4 at the normalization-layer parameter of `modelW`
whose name matches the absolute-position-embedding pattern. -/
theorem claim_C4_witness :
    ∃ g ∈ build_optimizer_params cfgW modelW (fun _ => true),
      g.params = [(⟨"image_encoder.norm1", ModuleKind.norm, "absolute_pos_embed", 3⟩ : OwnedParam).pid]
      ∧ g.weight_decay
          = (if (⟨"image_encoder.norm1", ModuleKind.norm, "absolute_pos_embed", 3⟩ : OwnedParam).kind = ModuleKind.embedding then cfgW.WEIGHT_DECAY_EMBED
             else if (⟨"image_encoder.norm1", ModuleKind.norm, "absolute_pos_embed", 3⟩ : OwnedParam).kind = ModuleKind.norm then cfgW.WEIGHT_DECAY_NORM
             else if (pyIn "relative_position_bias_table" (⟨"image_encoder.norm1", ModuleKind.norm, "absolute_pos_embed", 3⟩ : OwnedParam).paramName
                || pyIn "absolute_pos_embed" (⟨"image_encoder.norm1", ModuleKind.norm, "absolute_pos_embed", 3⟩ : OwnedParam).paramName) = true then 0
             else cfgW.WEIGHT_DECAY)
      ∧ ((pyIn "relative_position_bias_table" (⟨"image_encoder.norm1", ModuleKind.norm, "absolute_pos_embed", 3⟩ : OwnedParam).paramName
            || pyIn "absolute_pos_embed" (⟨"image_encoder.norm1", ModuleKind.norm, "absolute_pos_embed", 3⟩ : OwnedParam).paramName) = true →
          (⟨"image_encoder.norm1", ModuleKind.norm, "absolute_pos_embed", 3⟩ : OwnedParam).kind = ModuleKind.norm →
          g.weight_decay = cfgW.WEIGHT_DECAY_NORM) :=
  claim_C4 cfgW modelW (fun _ => true)
    ⟨"image_encoder.norm1", ModuleKind.norm, "absolute_pos_embed", 3⟩
    (by decide) (by decide) (by decide)

/-- Claim C5: full-model gradient clipping and the generic per-group
clipping wrapper are never both active on the optimizer returned by
`build_optimizer`: with clip type `full_model` the generic wrapper is
bypassed entirely, and with any other clip type the full-model clipping
subclass is not applied. -/
theorem claim_C5 (cfg : SolverCfg) (gs : List Group) (opt : OptimizerObj)
    (h : build_optimizer_final cfg gs = Except.ok opt) :
    ¬(opt.fullModelClip = true ∧ opt.perGroupClipWrapped = true)
    ∧ (cfg.CLIP_GRADIENTS_CLIP_TYPE = "full_model" →
        opt.perGroupClipWrapped = false)
    ∧ (¬(cfg.CLIP_GRADIENTS_CLIP_TYPE = "full_model") →
        opt.fullModelClip = false) := by
  rw [build_optimizer_final] at h
  cases hsel : build_optimizer_select cfg gs with
  | error e =>
    rw [hsel] at h
    cases h
  | ok opt0 =>
    rw [hsel] at h
    have h' : (if (!decide (cfg.CLIP_GRADIENTS_CLIP_TYPE = "full_model")) = true then
          Except.ok { opt0 with perGroupClipWrapped := true }
        else Except.ok opt0) = Except.ok opt := h
    obtain ⟨hfm, hpg⟩ := build_optimizer_select_ok cfg gs opt0 hsel
    by_cases hft : cfg.CLIP_GRADIENTS_CLIP_TYPE = "full_model"
    · rw [if_neg (by simp [hft])] at h'
      cases h'
      refine ⟨?_, fun _ => hpg, fun hne => absurd hft hne⟩
      rintro ⟨_, hp⟩
      rw [hpg] at hp
      exact Bool.false_ne_true hp
    · rw [if_pos (by simp [hft])] at h'
      cases h'
      have hfmfalse : opt0.fullModelClip = false := by
        rw [hfm]
        simp [fullModelClipEnable, hft]
      refine ⟨?_, fun hf => absurd hf hft, fun _ => hfmfalse⟩
      rintro ⟨hf, _⟩
      rw [show ({ opt0 with perGroupClipWrapped := true } : OptimizerObj).fullModelClip
          = opt0.fullModelClip from rfl, hfmfalse] at hf
      exact Bool.false_ne_true hf

/-- Witness for C5 at `cfgW` (SGD, full-model clipping enabled). -/
theorem claim_C5_witness :
    ¬((⟨BaseOpt.sgd, [], true, false⟩ : OptimizerObj).fullModelClip = true
        ∧ (⟨BaseOpt.sgd, [], true, false⟩ : OptimizerObj).perGroupClipWrapped = true)
    ∧ (cfgW.CLIP_GRADIENTS_CLIP_TYPE = "full_model" →
        (⟨BaseOpt.sgd, [], true, false⟩ : OptimizerObj).perGroupClipWrapped = false)
    ∧ (¬(cfgW.CLIP_GRADIENTS_CLIP_TYPE = "full_model") →
        (⟨BaseOpt.sgd, [], true, false⟩ : OptimizerObj).fullModelClip = false) :=
  claim_C5 cfgW [] ⟨BaseOpt.sgd, [], true, false⟩ (by decide)

/-- Claim C6: every trainable parameter owned by a module whose path
contains `image_encoder` but not `ctm` is assigned learning rate
`BASE_LR * BACKBONE_MULTIPLIER` by `build_optimizer`, and every other
trainable parameter is assigned `BASE_LR` (stated for models without
parameter sharing). -/
theorem claim_C6 (cfg : SolverCfg) (model : Model) (flags : Nat → Bool)
    (e : OwnedParam)
    (hnodup : ((enumOwned model).map OwnedParam.pid).Nodup)
    (he : e ∈ enumOwned model) (htr : flags e.pid = true) :
    ∃ g ∈ build_optimizer_params cfg model flags,
      g.params = [e.pid]
      ∧ g.lr = (if (pyIn "image_encoder" e.moduleName
            && !(pyIn "ctm" e.moduleName)) = true
          then cfg.BASE_LR * cfg.BACKBONE_MULTIPLIER
          else cfg.BASE_LR) :=
  ⟨mkGroup cfg e,
    build_params_complete cfg model flags e hnodup he htr, rfl,
    computeLR_backbone cfg e.moduleName⟩

/-- Witness for C6 at the backbone parameter of `modelW`. -/
theorem claim_C6_witness :
    ∃ g ∈ build_optimizer_params cfgW modelW (fun _ => true),
      g.params = [(⟨"image_encoder.trunk", ModuleKind.other, "w", 2⟩ : OwnedParam).pid]
      ∧ g.lr = (if (pyIn "image_encoder" (⟨"image_encoder.trunk", ModuleKind.other, "w", 2⟩ : OwnedParam).moduleName
            && !(pyIn "ctm" (⟨"image_encoder.trunk", ModuleKind.other, "w", 2⟩ : OwnedParam).moduleName)) = true
          then cfgW.BASE_LR * cfgW.BACKBONE_MULTIPLIER
          else cfgW.BASE_LR) :=
  claim_C6 cfgW modelW (fun _ => true)
    ⟨"image_encoder.trunk", ModuleKind.other, "w", 2⟩
    (by decide) (by decide) (by decide)

/-- Counterexample to C7 as stated: requesting the single test dataset
`"coco_2017_val"` makes `Trainer.test` raise `NameError` (the undefined
`CocoClipDatasetMapper`) instead of returning the dataset's result
dictionary; and requesting two datasets that share one name returns the
bare result dictionary instead of a name-keyed mapping. -/
theorem claim_C7_cex :
    trainer_test evalTypeCocoW ⟨true, false, false⟩ inferW none ["coco_2017_val"]
      = Except.error (PyError.nameError "CocoClipDatasetMapper")
    ∧ trainer_test evalTypeCocoW ⟨true, false, false⟩ inferW none
        ["ytvis_2019_val", "ytvis_2019_val"]
      = Except.ok (TestResult.single [("ytvis_2019_val", 1)]) := by
  constructor
  · decide
  · decide

/-- Claim C7 as amended: provided no requested dataset name starts with
`coco`, `refcoco` or `lvis` and no requested dataset's evaluator type is
`imagenet` (either condition makes `Trainer.test` raise `NameError`),
a single requested dataset yields its result dictionary directly, and a
request covering two or more distinct dataset names yields a mapping
whose key set is exactly the requested names. -/
theorem claim_C7 (evalType : String → String) (fl : TestCfg)
    (infer : Evaluator → String → MetricsDict) (datasets : List String)
    (hload : ∀ d ∈ datasets, (pyStartsWith d "coco" || pyStartsWith d "refcoco"
      || pyStartsWith d "lvis") = false)
    (himg : ∀ d ∈ datasets, evalType d ≠ "imagenet") :
    (∀ d, datasets = [d] →
      ∃ r, trainer_test evalType fl infer none datasets
        = Except.ok (TestResult.single r))
    ∧ (2 ≤ datasets.toFinset.card →
      ∃ m, trainer_test evalType fl infer none datasets
          = Except.ok (TestResult.mapping m)
        ∧ (m.map Prod.fst).Nodup
        ∧ ∀ k, k ∈ m.map Prod.fst ↔ k ∈ datasets) := by
  constructor
  · rintro d rfl
    exact trainer_test_single evalType fl infer d
      (hload d (by simp)) (himg d (by simp))
  · intro hcard
    exact trainer_test_mapping evalType fl infer datasets hload himg hcard

/-- Witness for the amended C7 at two concrete video datasets. -/
theorem claim_C7_witness :
    (∀ d, ["ytvis_a", "ytvis_b"] = [d] →
      ∃ r, trainer_test evalTypeW ⟨true, false, false⟩ inferW none
          ["ytvis_a", "ytvis_b"]
        = Except.ok (TestResult.single r))
    ∧ (2 ≤ (["ytvis_a", "ytvis_b"] : List String).toFinset.card →
      ∃ m, trainer_test evalTypeW ⟨true, false, false⟩ inferW none
            ["ytvis_a", "ytvis_b"]
          = Except.ok (TestResult.mapping m)
        ∧ (m.map Prod.fst).Nodup
        ∧ ∀ k, k ∈ m.map Prod.fst ↔ k ∈ (["ytvis_a", "ytvis_b"] : List String)) :=
  claim_C7 evalTypeW ⟨true, false, false⟩ inferW ["ytvis_a", "ytvis_b"]
    (by decide) (by decide)

/-- Claim C8: when `build_evaluator` fails with `NotImplementedError`
for a dataset (and no pre-built evaluator was supplied), the test loop
records an empty result dictionary for that dataset, appends the
warning, and proceeds to the remaining datasets instead of aborting. -/
theorem claim_C8 (evalType : String → String) (fl : TestCfg)
    (infer : Evaluator → String → MetricsDict) (st : TestState) (d : String)
    (hload : (pyStartsWith d "coco" || pyStartsWith d "refcoco"
      || pyStartsWith d "lvis") = false)
    (hni : ∃ msg, build_evaluator fl (evalType d) d
      = Except.error (PyError.notImplemented msg)) :
    testStep evalType fl infer st (d, none)
      = Except.ok { results := odSet st.results d [],
                    warnings := st.warnings ++ [noEvaluatorWarning] }
    ∧ ∀ rest, testLoop evalType fl infer ((d, none) :: rest) st
        = testLoop evalType fl infer rest
            { results := odSet st.results d [],
              warnings := st.warnings ++ [noEvaluatorWarning] } := by
  obtain ⟨msg, hev⟩ := hni
  have hstep : testStep evalType fl infer st (d, none)
      = Except.ok { results := odSet st.results d [],
                    warnings := st.warnings ++ [noEvaluatorWarning] } := by
    rw [testStep, show (d, (none : Option Evaluator)).1 = d from rfl,
      build_test_loader_uniVid d hload,
      show (d, (none : Option Evaluator)).2 = (none : Option Evaluator) from rfl,
      hev]
  refine ⟨hstep, fun rest => ?_⟩
  rw [testLoop, hstep]

/-- Witness for C8 at a dataset whose evaluator type is unrecognized. -/
theorem claim_C8_witness :
    testStep evalTypeW ⟨true, false, false⟩ inferW { results := [], warnings := [] }
        ("ytvis_val", none)
      = Except.ok { results := odSet ([] : List (String × MetricsDict)) "ytvis_val" [],
                    warnings := ([] : List String) ++ [noEvaluatorWarning] }
    ∧ ∀ rest, testLoop evalTypeW ⟨true, false, false⟩ inferW
          (("ytvis_val", none) :: rest) { results := [], warnings := [] }
        = testLoop evalTypeW ⟨true, false, false⟩ inferW rest
            { results := odSet ([] : List (String × MetricsDict)) "ytvis_val" [],
              warnings := ([] : List String) ++ [noEvaluatorWarning] } :=
  claim_C8 evalTypeW ⟨true, false, false⟩ inferW { results := [], warnings := [] }
    "ytvis_val" (by decide)
    ⟨"Not support the evaluator type ytvis_val", by decide⟩

/-- Claim C9 (the code contradicts it): for a dataset whose evaluator
type is `imagenet`, `build_evaluator` raises `NameError` for the
never-imported `ImageNetEvaluator` instead of returning a
classification evaluator. -/
theorem claim_C9 (fl : TestCfg) (d : String) :
    build_evaluator fl "imagenet" d
      = Except.error (PyError.nameError "ImageNetEvaluator") := by
  rw [build_evaluator, evaluatorListFor, if_pos rfl,
    refGlobal_nameError _ _ (by decide)]

/-- Claim C10: any configured training dataset whose name starts with
`coco` without containing `panoptic`, or starts with `sa_1b`, makes
`build_train_loader` raise `NameError` for the never-imported
`CocoClipDatasetMapper`; and any test dataset whose name starts with
`coco`, `refcoco` or `lvis` makes `build_test_loader` raise the same
`NameError`. -/
theorem claim_C10 (datasets : List String) (ds : String) (hmem : ds ∈ datasets)
    (hmatch : ((pyStartsWith ds "coco" && !(pyIn "panoptic" ds))
      || pyStartsWith ds "sa_1b") = true)
    (dt : String)
    (hdt : (pyStartsWith dt "coco" || pyStartsWith dt "refcoco"
      || pyStartsWith dt "lvis") = true) :
    build_train_loader datasets
      = Except.error (PyError.nameError "CocoClipDatasetMapper")
    ∧ build_test_loader dt
      = Except.error (PyError.nameError "CocoClipDatasetMapper") := by
  constructor
  · have hsel : selectTrainMapper ds
        = Except.error (PyError.nameError "CocoClipDatasetMapper") := by
      rw [selectTrainMapper, if_pos hmatch, refGlobal_nameError _ _ (by decide)]
    rw [build_train_loader, buildMappers_error datasets ds hmem hsel]
  · rw [build_test_loader, if_pos hdt, refGlobal_nameError _ _ (by decide)]

/-- Witness for C10 at concrete dataset names. -/
theorem claim_C10_witness :
    build_train_loader ["coco_2017_train"]
      = Except.error (PyError.nameError "CocoClipDatasetMapper")
    ∧ build_test_loader "lvis_v1_val"
      = Except.error (PyError.nameError "CocoClipDatasetMapper") :=
  claim_C10 ["coco_2017_train"] "coco_2017_train" (by decide) (by decide)
    "lvis_v1_val" (by decide)

end TrainNet
